import Mathlib

/-!
Shallow embedding of `src/socialplanner.py` (a Streamlit social-media
content planner).  Post records are rows of the pandas dataframe
`st.session_state.posts_df`; the dataframe is modelled as a `List Post`
in row order.  Python strings stay `String`, Python ints stay `Int`,
pandas float results that can be infinite or NaN are modelled by an
explicit `PFloat` type.  Effects (Streamlit widgets, file handles) are
turned into explicit parameters and returned values.
-/

namespace SocialPlanner

/-- One row of the posts dataframe, with the exact column set used by
`load_data`, the demo seeding block and the creation form. -/
structure Post where
  title : String
  content : String
  platform : String
  scheduled_date : String
  scheduled_time : String
  status : String
  image : Option String
  likes : Int
  comments : Int
  shares : Int
  reach : Int
deriving DecidableEq

/-- Lexicographic order on character lists: the model of the Python
string comparisons used for the date range test (kernel reducible,
unlike the builtin `String` order). -/
def lexLe : List Char → List Char → Bool
  | [], _ => true
  | _ :: _, [] => false
  | a :: as, b :: bs => if a < b then true else if b < a then false else lexLe as bs

/-! ## Filter engine (source lines 202-207)

```python
filtered_df = st.session_state.posts_df.copy()
if platform_filter and "All" not in platform_filter:
    filtered_df = filtered_df[filtered_df["platform"].isin(platform_filter)]
if status_filter and "All" not in status_filter:
    filtered_df = filtered_df[filtered_df["status"].isin(status_filter)]
```

A Python list is falsy exactly when it is empty, so each guard is
`selection nonempty AND "All" not selected`. -/

/-- The sidebar filter: `filtered_df` as a function of the stored posts and
the two multiselect values. -/
def filtered_df (posts : List Post) (platform_filter status_filter : List String) : List Post :=
  let step1 :=
    if platform_filter ≠ [] ∧ "All" ∉ platform_filter then
      posts.filter (fun p => platform_filter.contains p.platform)
    else posts
  if status_filter ≠ [] ∧ "All" ∉ status_filter then
    step1.filter (fun p => status_filter.contains p.status)
  else step1

/-! ## Calendar bucketer (source lines 242-310)

The grid is driven by `calendar.monthcalendar(year, month)`: a list of
weeks, each a list of 7 ints, Monday first, with 0 for days outside the
month.  We re-implement it from the proleptic Gregorian calendar exactly
as CPython does (`datetime.date(y, m, 1).weekday()` with Monday = 0). -/

/-- Gregorian leap year test. -/
def isLeap (y : Nat) : Bool := y % 4 == 0 && (y % 100 != 0 || y % 400 == 0)

/-- Number of days in a month of the Gregorian calendar. -/
def daysInMonth (y m : Nat) : Nat :=
  if m = 2 then (if isLeap y then 29 else 28)
  else if m = 4 ∨ m = 6 ∨ m = 9 ∨ m = 11 then 30 else 31

/-- Days strictly before January 1st of year `y` counted from 0001-01-01. -/
def daysBeforeYear (y : Nat) : Nat :=
  365 * (y - 1) + (y - 1) / 4 - (y - 1) / 100 + (y - 1) / 400

/-- Days of year `y` strictly before month `m`. -/
def daysBeforeMonth (y m : Nat) : Nat :=
  ((List.range (m - 1)).map (fun k => daysInMonth y (k + 1))).sum

/-- Proleptic Gregorian ordinal of a date, with 0001-01-01 mapped to 1,
as in `datetime.date.toordinal`. -/
def toOrdinal (y m d : Nat) : Nat := daysBeforeYear y + daysBeforeMonth y m + d

/-- Day of week with Monday = 0, as in `datetime.date.weekday`
(ordinal 1 is a Monday). -/
def weekday (y m d : Nat) : Nat := (toOrdinal y m d + 6) % 7

/-- Chops a flat list into rows of 7, with fuel for structural recursion. -/
def toWeeksAux : Nat → List Nat → List (List Nat)
  | 0, _ => []
  | _, [] => []
  | fuel + 1, l => l.take 7 :: toWeeksAux fuel (l.drop 7)

/-- Chops a flat list into rows of 7. -/
def toWeeks (l : List Nat) : List (List Nat) := toWeeksAux l.length l

/-- Embedding of Python `calendar.monthcalendar(y, m)`: leading zeros up
to the weekday of the 1st, the day numbers, trailing zeros padding the
last week to 7 entries. -/
def monthcalendar (y m : Nat) : List (List Nat) :=
  let w := weekday y m 1
  let n := daysInMonth y m
  toWeeks (List.replicate w 0 ++ (List.range n).map (· + 1) ++
    List.replicate ((7 - (w + n) % 7) % 7) 0)

/-- A calendar date triple, the model of `datetime.date`. -/
structure Date where
  year : Nat
  month : Nat
  day : Nat
deriving DecidableEq

/-- Moving one day forward, rolling over month and year ends. -/
def incDay (t : Date) : Date :=
  if t.day < daysInMonth t.year t.month then ⟨t.year, t.month, t.day + 1⟩
  else if t.month < 12 then ⟨t.year, t.month + 1, 1⟩
  else ⟨t.year + 1, 1, 1⟩

/-- Moving one day backward, rolling under month and year starts. -/
def decDay (t : Date) : Date :=
  if 1 < t.day then ⟨t.year, t.month, t.day - 1⟩
  else if 1 < t.month then ⟨t.year, t.month - 1, daysInMonth t.year (t.month - 1)⟩
  else ⟨t.year - 1, 12, 31⟩

/-- Adds k days, as `date + timedelta(days = k)` does for `k ≥ 0`. -/
def addDays (k : Nat) (t : Date) : Date :=
  match k with
  | 0 => t
  | k + 1 => addDays k (incDay t)

/-- Subtracts k days, as `date - timedelta(days = k)` does for `k ≥ 0`. -/
def subDays (k : Nat) (t : Date) : Date :=
  match k with
  | 0 => t
  | k + 1 => subDays k (decDay t)

/-- Source lines 251-253: the end of the displayed month is computed as
`(month_start + timedelta(days=32)).replace(day=1) - timedelta(days=1)`. -/
def month_end (y m : Nat) : Date :=
  let t := addDays 32 ⟨y, m, 1⟩
  decDay ⟨t.year, t.month, 1⟩

/-- Zero pads a number to two digits, as the `:02d` format does. -/
def pad2 (n : Nat) : String := if n < 10 then ("0" ++ toString n) else toString n

/-- The canonical `YYYY-MM-DD` cell date string of source line 268. -/
def dateStr (y m d : Nat) : String :=
  toString y ++ "-" ++ pad2 m ++ "-" ++ pad2 d

/-- Formats a `Date` the way `strftime("%Y-%m-%d")` does for four digit
years. -/
def fmtDate (t : Date) : String := dateStr t.year t.month t.day

/-- One cell of the rendered calendar grid: empty for a `0` entry of
`monthcalendar`, otherwise the day number with the post count, the
distinct platforms of the day, and the today/selected flags
(source lines 261-310). -/
inductive Cell where
  | empty : Cell
  | day (dayNum : Nat) (post_count : Nat) (platforms : List String)
      (is_today : Bool) (is_selected : Bool) : Cell
deriving DecidableEq

/-- Source lines 255-258: the posts of the displayed month, selected by
lexical comparison of the `YYYY-MM-DD` strings. -/
def month_posts (y m : Nat) (posts : List Post) : List Post :=
  posts.filter (fun p =>
    lexLe (dateStr y m 1).data p.scheduled_date.data &&
      lexLe p.scheduled_date.data (fmtDate (month_end y m)).data)

/-- Renders one `monthcalendar` entry: `0` becomes the empty cell,
a day number becomes a day cell with its post count, distinct platforms
and highlight flags. -/
def cellify (y m : Nat) (mp : List Post) (todayStr selStr : String) (day : Nat) : Cell :=
  if day = 0 then Cell.empty
  else
    let ds := dateStr y m day
    let day_posts := mp.filter (fun p => p.scheduled_date == ds)
    Cell.day day day_posts.length ((day_posts.map Post.platform).dedup)
      (ds == todayStr) (ds == selStr)

/-- The whole calendar grid as a function of year, month, the filtered
posts and the two highlighted date strings. -/
def build_grid (y m : Nat) (posts : List Post) (todayStr selStr : String) :
    List (List Cell) :=
  (monthcalendar y m).map (fun week =>
    week.map (cellify y m (month_posts y m posts) todayStr selStr))

/-- Counts the cells of a grid holding a day of the displayed month. -/
def nonEmptyCells (g : List (List Cell)) : Nat :=
  (g.map (fun w => w.countP (fun c => c != Cell.empty))).sum

/-! ## Analytics aggregator (source lines 417-537)

The analytics view works on `published_posts`, the filtered view further
restricted to `status == "Published"`.  The per-platform rollup is
`groupby("platform").agg(sum)` followed by the engagement rate column;
pandas sorts the group keys ascending, and dividing an integer column by
zero yields `inf`, `-inf` or `NaN` rather than raising, which the
`PFloat` type records explicitly (float rounding is not modelled; the
values here are exact rationals). -/

/-- Source line 417: the published subset of the filtered view. -/
def published_posts (df : List Post) : List Post :=
  df.filter (fun p => p.status == "Published")

/-- Source line 534: `likes + comments + shares` of one post. -/
def total_engagement (p : Post) : Int := p.likes + p.comments + p.shares

/-- A pandas float64 cell: a finite value, one of the two infinities, or
NaN. -/
inductive PFloat where
  | val (q : ℚ) : PFloat
  | inf : PFloat
  | negInf : PFloat
  | nan : PFloat
deriving DecidableEq

/-- Source lines 477-480: the engagement rate column
`(likes + comments + shares) / reach * 100` with IEEE division semantics
on a zero denominator (`x/0` is `±inf` for `x ≠ 0` and `NaN` for `0/0`;
multiplying by 100 keeps `inf` and `NaN`). -/
def engRate (eng reach : Int) : PFloat :=
  if reach = 0 then
    (if eng = 0 then PFloat.nan else if 0 < eng then PFloat.inf else PFloat.negInf)
  else PFloat.val ((eng : ℚ) / (reach : ℚ) * 100)

/-- Boolean string order used to model the ascending key sort pandas
`groupby` performs. -/
def strLe (a b : String) : Bool := lexLe a.data b.data

/-- The distinct platforms of the input, sorted ascending, i.e. the index
pandas `groupby("platform")` produces. -/
def platformKeys (l : List Post) : List String :=
  List.insertionSort (fun a b => strLe a b = true) (l.map Post.platform).dedup

/-- One row of the per-platform rollup of source lines 469-480. -/
structure PlatformRow where
  platform : String
  likes : Int
  comments : Int
  shares : Int
  reach : Int
  engagement_rate : PFloat
deriving DecidableEq

/-- Source lines 469-480: `platform_data`, the per-platform sums plus the
engagement rate column. -/
def platform_data (published : List Post) : List PlatformRow :=
  (platformKeys published).map (fun k =>
    let grp := published.filter (fun p => p.platform == k)
    let likes := (grp.map Post.likes).sum
    let comments := (grp.map Post.comments).sum
    let shares := (grp.map Post.shares).sum
    let reach := (grp.map Post.reach).sum
    { platform := k, likes := likes, comments := comments, shares := shares,
      reach := reach, engagement_rate := engRate (likes + comments + shares) reach })

/-- Source lines 534-537: published posts sorted by `total_engagement`
descending (stable on the small frames at hand) and cut to the first 5
by `head(5)`; the count 5 is a literal in the source, not a parameter. -/
def top_posts (published : List Post) : List Post :=
  (List.insertionSort (fun a b => total_engagement b ≤ total_engagement a) published).take 5

/-! ## Demo data seeding (source lines 131-172)

`datetime.now().date()` is passed in as the `today` parameter; everything
else is literal in the source. -/

/-- Source line 138. -/
def demo_platforms : List String :=
  ["Instagram", "Facebook", "Twitter", "LinkedIn", "TikTok"]

/-- Source line 139. -/
def demo_statuses : List String :=
  ["Published", "Scheduled", "Draft", "Published", "Scheduled"]

/-- Source lines 133-136: `today + timedelta(days = i)` for `i` in
`range(-5, 15)`. -/
def demo_dates (today : Date) : List Date :=
  (List.range 20).map (fun i => if i < 5 then subDays (5 - i) today else addDays (i - 5) today)

/-- Source lines 142-169: the demo post of index `i`. -/
def demo_post (today : Date) (i : Nat) : Post :=
  let platform := demo_platforms.getD (i % 5) ""
  let status := demo_statuses.getD (i % 5) ""
  { title := "Demo Post " ++ toString (i + 1),
    content := "This is example content for " ++ platform ++ " post #" ++
      toString (i + 1) ++ ". #demo #socialmedia",
    platform := platform,
    scheduled_date := fmtDate ((demo_dates today).getD (i % 20) today),
    scheduled_time := toString (8 + i % 8) ++ ":00",
    status := status,
    image := none,
    likes := if status == "Published" then 100 + 50 * ((i : Int) % 7) else 0,
    comments := if status == "Published" then 10 + 5 * ((i : Int) % 5) else 0,
    shares := if status == "Published" then 5 + 3 * ((i : Int) % 4) else 0,
    reach := if status == "Published" then 500 + 100 * ((i : Int) % 10) else 0 }

/-- Source lines 141-171: the full list of 20 demo posts seeded when the
store is empty. -/
def demo_data (today : Date) : List Post := (List.range 20).map (demo_post today)

/-! ## Post store (source lines 59-92, 385-410, 599-617)

File reads, JSON parsing and the upload widget are external effects; they
enter the model as explicit arguments (`Option` for a possibly missing
file, `Except` for a parse that can fail), and the `st.error` message
surfaced to the user is returned as an `Option String`. -/

/-- Source lines 59-82, `load_data`: `none` models a missing snapshot
file, `Except.error e` a snapshot whose parse raised `e`.  The result is
the loaded rows plus the surfaced error message, if any. -/
def load_data (snapshot : Option (Except String (List Post))) :
    List Post × Option String :=
  match snapshot with
  | none => ([], none)
  | some (Except.error e) => ([], some ("Error loading data: " ++ e))
  | some (Except.ok rows) => (rows, none)

/-- Source lines 599-617, the Import Data expander: `parsed` is the
outcome of `pd.read_csv` / `pd.read_json` on the upload, `confirmed`
whether the replace button was clicked.  Returns the resulting store and
the surfaced error message, if any. -/
def import_data (store : List Post) (parsed : Except String (List Post))
    (confirmed : Bool) : List Post × Option String :=
  match parsed with
  | Except.error e => (store, some ("Error importing data: " ++ e))
  | Except.ok imported => if confirmed then (imported, none) else (store, none)

/-- Source lines 385-397: the record built by the creation form; the four
engagement columns are the literal zeros of the source. -/
def new_post (post_title post_content post_platform : String) (post_date : Date)
    (post_time : String) (post_status : String) (encoded_image : Option String) : Post :=
  { title := post_title, content := post_content, platform := post_platform,
    scheduled_date := fmtDate post_date, scheduled_time := post_time,
    status := post_status, image := encoded_image,
    likes := 0, comments := 0, shares := 0, reach := 0 }

/-- Source lines 375-403: the submit handler appends the new record
unless the title or the content is empty (Python falsiness of the empty
string). -/
def submit_new_post (posts_df : List Post) (post_title post_content post_platform : String)
    (post_date : Date) (post_time : String) (post_status : String)
    (encoded_image : Option String) : List Post :=
  if post_title = "" then posts_df
  else if post_content = "" then posts_df
  else posts_df ++
    [new_post post_title post_content post_platform post_date post_time post_status
      encoded_image]

/-- A sample post used for concrete counterexamples. -/
def samplePost : Post :=
  { title := "Demo Post 1", content := "hello", platform := "Instagram",
    scheduled_date := "2026-10-12", scheduled_time := "8:00",
    status := "Draft", image := none,
    likes := 0, comments := 0, shares := 0, reach := 0 }

/-- A published post with engagement but zero reach. -/
def zeroReachPost : Post := { samplePost with status := "Published", likes := 10 }

/-- A published post with a given number of likes and no comments or
shares, so its total engagement is exactly that number. -/
def scenarioPost (n : Int) : Post := { samplePost with status := "Published", likes := n }

/-- The published posts of the top-N scenario given in the spec: total engagement
values 50, 200, 10, 75, 5, 300 in that input order. -/
def scenario_posts : List Post :=
  [scenarioPost 50, scenarioPost 200, scenarioPost 10, scenarioPost 75,
    scenarioPost 5, scenarioPost 300]

/-- A concrete value for the `datetime.now().date()` parameter. -/
def sampleToday : Date := ⟨2026, 10, 12⟩

end SocialPlanner

set_option maxRecDepth 10000

namespace SocialPlanner

/-- C5: selecting the sentinel "All" on both dimensions skips both guards,
so the copy of the input comes back unchanged. -/
theorem filtered_df_all_all (posts : List Post) :
    filtered_df posts ["All"] ["All"] = posts := by
  simp [filtered_df]

/-- C1 counterexample: with an empty platform selection the guard
`platform_filter and "All" not in platform_filter` is falsy, so no
filtering happens and the full input comes back; likewise for an empty
status selection.  The claim says the result should be empty. -/
theorem filtered_df_empty_selection_counterexample :
    filtered_df [samplePost] [] ["All"] = [samplePost] ∧
      filtered_df [samplePost] [] ["All"] ≠ [] ∧
      filtered_df [samplePost] ["All"] [] = [samplePost] ∧
      filtered_df [samplePost] ["All"] [] ≠ [] := by
  refine ⟨by simp [filtered_df], by simp [filtered_df], by simp [filtered_df],
    by simp [filtered_df]⟩

/-- C1 amended: an empty selection set on a dimension disables filtering on
that dimension, exactly as the "All" sentinel does; the result is the
input filtered only by the other dimension, never the empty list cut. -/
theorem filtered_df_empty_eq_all (posts : List Post) (pf sf : List String) :
    filtered_df posts [] sf = filtered_df posts ["All"] sf ∧
      filtered_df posts pf [] = filtered_df posts pf ["All"] := by
  constructor
  · simp [filtered_df]
  · simp [filtered_df]

theorem toWeeksAux_flatten :
    ∀ (fuel : Nat) (l : List Nat), l.length ≤ fuel → (toWeeksAux fuel l).flatten = l := by
  intro fuel
  induction fuel with
  | zero =>
    intro l h
    have : l = [] := List.length_eq_zero.mp (Nat.le_zero.mp h)
    subst this
    simp [toWeeksAux]
  | succ n ih =>
    intro l h
    cases l with
    | nil => simp [toWeeksAux]
    | cons a as =>
      simp only [toWeeksAux, List.flatten_cons]
      rw [ih ((a :: as).drop 7) (by simp at h ⊢; omega)]
      exact List.take_append_drop 7 (a :: as)

theorem toWeeksAux_row_len :
    ∀ (fuel : Nat) (l : List Nat), l.length ≤ fuel → 7 ∣ l.length →
      ∀ row ∈ toWeeksAux fuel l, row.length = 7 := by
  intro fuel
  induction fuel with
  | zero =>
    intro l h _ row hr
    have : l = [] := List.length_eq_zero.mp (Nat.le_zero.mp h)
    subst this
    simp [toWeeksAux] at hr
  | succ n ih =>
    intro l h hdvd row hr
    cases l with
    | nil => simp [toWeeksAux] at hr
    | cons a as =>
      have hlen7 : 7 ≤ (a :: as).length := by
        rcases hdvd with ⟨k, hk⟩
        simp at hk ⊢
        omega
      simp only [toWeeksAux, List.mem_cons] at hr
      rcases hr with rfl | hr
      · rw [List.length_take]
        omega
      · refine ih _ (by simp at h ⊢; omega) ?_ row hr
        rw [List.length_drop]
        rcases hdvd with ⟨k, hk⟩
        exact ⟨k - 1, by omega⟩

theorem monthcalendar_rows (y m : Nat) :
    ∀ row ∈ monthcalendar y m, row.length = 7 := by
  intro row hr
  refine toWeeksAux_row_len _ _ le_rfl ?_ row hr
  simp [List.length_append]
  omega

theorem monthcalendar_count (y m : Nat) :
    ((monthcalendar y m).map (List.countP (fun d => d != 0))).sum = daysInMonth y m := by
  rw [← List.countP_flatten]
  simp only [monthcalendar, toWeeks]
  rw [toWeeksAux_flatten _ _ le_rfl]
  rw [List.countP_append, List.countP_append]
  have h1 : List.countP (fun d => d != 0) (List.replicate (weekday y m 1) 0) = 0 := by
    refine List.countP_eq_zero.mpr ?_
    intro a ha
    rw [List.eq_of_mem_replicate ha]
    decide
  have h2 : List.countP (fun d => d != 0)
      (List.replicate ((7 - (weekday y m 1 + daysInMonth y m) % 7) % 7) 0) = 0 := by
    refine List.countP_eq_zero.mpr ?_
    intro a ha
    rw [List.eq_of_mem_replicate ha]
    decide
  have h3 : List.countP (fun d => d != 0) ((List.range (daysInMonth y m)).map (· + 1)) =
      daysInMonth y m := by
    rw [List.countP_eq_length.mpr]
    · simp
    · intro a ha
      simp at ha
      rcases ha with ⟨b, _, rfl⟩
      simp
  rw [h1, h2, h3]
  omega

theorem cellify_ne_empty (y m : Nat) (mp : List Post) (td sel : String) (d : Nat) :
    (cellify y m mp td sel d != Cell.empty) = (d != 0) := by
  cases d with
  | zero => rfl
  | succ k => rfl

theorem build_grid_counts (y m : Nat) (posts : List Post) (td sel : String) :
    (build_grid y m posts td sel).length = (monthcalendar y m).length ∧
      (∀ row ∈ build_grid y m posts td sel, row.length = 7) ∧
      nonEmptyCells (build_grid y m posts td sel) = daysInMonth y m := by
  refine ⟨by simp [build_grid], ?_, ?_⟩
  · intro row hr
    simp [build_grid] at hr
    rcases hr with ⟨w, hw, rfl⟩
    simp
    exact monthcalendar_rows y m w hw
  · unfold nonEmptyCells build_grid
    rw [List.map_map]
    have hcomp : (List.countP (fun c => c != Cell.empty)) ∘
        (fun w : List Nat => w.map (cellify y m (month_posts y m posts) td sel)) =
        fun w => List.countP (fun d => d != 0) w := by
      funext w
      simp only [Function.comp]
      rw [List.countP_map]
      congr 1
      funext d
      exact cellify_ne_empty y m (month_posts y m posts) td sel d
    rw [hcomp]
    exact monthcalendar_count y m


theorem daysInMonth_bounds (y m : Nat) : 28 ≤ daysInMonth y m ∧ daysInMonth y m ≤ 31 := by
  unfold daysInMonth
  split
  · split <;> omega
  · split <;> omega

theorem addDays_succ (k : Nat) (t : Date) : addDays (k + 1) t = addDays k (incDay t) := rfl

theorem addDays_add (a b : Nat) (t : Date) : addDays (a + b) t = addDays b (addDays a t) := by
  induction a generalizing t with
  | zero => simp [addDays]
  | succ n ih =>
    rw [show n + 1 + b = n + b + 1 from by omega, addDays_succ, addDays_succ, ih (incDay t)]

theorem addDays_stay (k y m d : Nat) (h : d + k ≤ daysInMonth y m) :
    addDays k ⟨y, m, d⟩ = ⟨y, m, d + k⟩ := by
  induction k generalizing d with
  | zero => simp [addDays]
  | succ n ih =>
    rw [addDays_succ]
    have hlt : d < daysInMonth y m := by omega
    rw [show incDay ⟨y, m, d⟩ = ⟨y, m, d + 1⟩ from by simp [incDay, hlt]]
    rw [ih (d + 1) (by omega)]
    congr 1
    omega

theorem month_end_eq (y m : Nat) (h1 : 1 ≤ m) (h2 : m ≤ 12) :
    month_end y m = ⟨y, m, daysInMonth y m⟩ := by
  obtain ⟨hd28, hd31⟩ := daysInMonth_bounds y m
  by_cases hm : m < 12
  · obtain ⟨hd28n, _⟩ := daysInMonth_bounds y (m + 1)
    have e1 : addDays 32 ⟨y, m, 1⟩ = ⟨y, m + 1, 33 - daysInMonth y m⟩ := by
      rw [show (32 : Nat) = (daysInMonth y m - 1) + ((32 - daysInMonth y m) + 1) from by omega]
      rw [addDays_add, addDays_stay (daysInMonth y m - 1) y m 1 (by omega)]
      rw [show 1 + (daysInMonth y m - 1) = daysInMonth y m from by omega]
      rw [addDays_succ]
      rw [show incDay ⟨y, m, daysInMonth y m⟩ = ⟨y, m + 1, 1⟩ from by simp [incDay, hm]]
      rw [addDays_stay (32 - daysInMonth y m) y (m + 1) 1 (by omega)]
      congr 1
      omega
    unfold month_end
    rw [e1]
    simp only []
    rw [show decDay ⟨y, m + 1, 1⟩ = ⟨y, m, daysInMonth y m⟩ from by
      simp [decDay]
      omega]
  · have hm12 : m = 12 := by omega
    subst hm12
    have hdim : daysInMonth y 12 = 31 := rfl
    have e1 : addDays 32 ⟨y, 12, 1⟩ = ⟨y + 1, 1, 2⟩ := by
      rw [show (32 : Nat) = 30 + (1 + 1) from by omega]
      rw [addDays_add, addDays_stay 30 y 12 1 (by rw [hdim])]
      rw [show (1 : Nat) + 1 = 0 + 1 + 1 from by omega, addDays_succ, addDays_succ]
      rw [show incDay ⟨y, 12, 1 + 30⟩ = ⟨y + 1, 1, 1⟩ from by simp [incDay, hdim]]
      rw [show incDay ⟨y + 1, 1, 1⟩ = ⟨y + 1, 1, 2⟩ from by
        have : daysInMonth (y + 1) 1 = 31 := rfl
        simp [incDay, this]]
      simp [addDays]
    unfold month_end
    rw [e1]
    simp only []
    rw [hdim]
    rw [show decDay ⟨y + 1, 1, 1⟩ = ⟨y, 12, 31⟩ from by simp [decDay]]

/-- C4: for every valid (year, month) the grid has exactly the row count
of the Monday-first monthcalendar layout, each row has 7 cells, the
count of non-empty day cells equals the number of days in the month, and
the month end used for bucketing (first day of the next month minus one
day, via the +32 days trick) is the last day of the month; in particular
February 2024 yields 29 non-empty cells and February 2023 yields 28. -/
theorem build_grid_spec (y m : Nat) (posts : List Post) (td sel : String)
    (h1 : 1 ≤ m) (h2 : m ≤ 12) :
    (build_grid y m posts td sel).length = (monthcalendar y m).length ∧
      (∀ row ∈ build_grid y m posts td sel, row.length = 7) ∧
      nonEmptyCells (build_grid y m posts td sel) = daysInMonth y m ∧
      month_end y m = ⟨y, m, daysInMonth y m⟩ ∧
      nonEmptyCells (build_grid 2024 2 [] "" "") = 29 ∧
      nonEmptyCells (build_grid 2023 2 [] "" "") = 28 := by
  obtain ⟨a, b, c⟩ := build_grid_counts y m posts td sel
  exact ⟨a, b, c, month_end_eq y m h1 h2, by decide, by decide⟩

/-- C4 witness: the statement instantiated at February 2024 with no
posts. -/
theorem build_grid_spec_witness :
    nonEmptyCells (build_grid 2024 2 [] "" "") = daysInMonth 2024 2 ∧
      month_end 2024 2 = ⟨2024, 2, 29⟩ := by
  obtain ⟨-, -, c, d, -, -⟩ := build_grid_spec 2024 2 [] "" "" (by decide) (by decide)
  exact ⟨c, d.trans (by decide)⟩

/-- C9: load_data returns the empty collection (and never raises) both
when the snapshot file is missing and when its parse fails, surfacing
the error message only in the failure case, and returns the stored rows
on success. -/
theorem load_data_spec (e : String) (rows : List Post) :
    load_data none = ([], none) ∧
      load_data (some (Except.error e)) = ([], some ("Error loading data: " ++ e)) ∧
      load_data (some (Except.ok rows)) = (rows, none) :=
  ⟨rfl, rfl, rfl⟩

/-- C8: a failed import parse reports the triggering reason and leaves
the store unchanged; a successful parse replaces the store only once the
replace button is confirmed, not on upload alone. -/
theorem import_data_spec (store : List Post) (e : String) (imported : List Post) (c : Bool) :
    import_data store (Except.error e) c = (store, some ("Error importing data: " ++ e)) ∧
      import_data store (Except.ok imported) false = (store, none) ∧
      import_data store (Except.ok imported) true = (imported, none) :=
  ⟨rfl, rfl, rfl⟩

/-- C10: every post appended by the creation path carries likes,
comments, shares and reach all 0, whatever its status (including a post
created directly with status Published): the submit handler either
leaves the store unchanged (empty title or content) or appends exactly
`new_post`, whose four engagement fields are literal zeros. -/
theorem new_post_zero_engagement (posts_df : List Post) (t c pl : String) (d : Date)
    (tm s : String) (img : Option String) :
    (new_post t c pl d tm s img).likes = 0 ∧
      (new_post t c pl d tm s img).comments = 0 ∧
      (new_post t c pl d tm s img).shares = 0 ∧
      (new_post t c pl d tm s img).reach = 0 ∧
      (submit_new_post posts_df t c pl d tm s img = posts_df ∨
        submit_new_post posts_df t c pl d tm s img =
          posts_df ++ [new_post t c pl d tm s img]) := by
  refine ⟨rfl, rfl, rfl, rfl, ?_⟩
  unfold submit_new_post
  split
  · exact Or.inl rfl
  split
  · exact Or.inl rfl
  · exact Or.inr rfl

/-- C2 counterexample: one published post with 10 likes and reach 0
makes the rollup engagement rate `inf`, an infinite value, which the
claim says can never appear. -/
theorem engagement_rate_inf_counterexample :
    (platform_data (published_posts [zeroReachPost])).map PlatformRow.engagement_rate
      = [PFloat.inf] := by decide

/-- C3 counterexample: the source truncates with the literal `head(5)`;
there is no n parameter, so on the 6-post scenario the result has 5
posts and is not the 3-post list the claim requires for n = 3. -/
theorem top_posts_take3_counterexample :
    (top_posts scenario_posts).length = 5 ∧
      top_posts scenario_posts ≠ [scenarioPost 300, scenarioPost 200, scenarioPost 75] := by
  decide

/-- C6 counterexample: the demo platform cycle has only five platforms;
Pinterest, the sixth platform of the enum, never occurs among the 20
seeded posts, so the seed does not cycle through all six platforms. -/
theorem demo_data_no_pinterest_counterexample :
    ((demo_data sampleToday).map Post.platform).contains ("Pinterest") = false ∧
      (demo_data sampleToday).length = 20 := by decide


theorem sum_map_filter_split (p : Post → Bool) (f : Post → Int) (l : List Post) :
    ((l.filter p).map f).sum + ((l.filter (fun x => !p x)).map f).sum = (l.map f).sum := by
  induction l with
  | nil => simp
  | cons a as ih =>
    cases hp : p a <;> simp [hp] <;> omega

theorem sum_filter_key (f : Post → Int) :
    ∀ (keys : List String) (l : List Post), keys.Nodup →
      (∀ p ∈ l, p.platform ∈ keys) →
      (keys.map (fun k => ((l.filter (fun p => p.platform == k)).map f).sum)).sum
        = (l.map f).sum := by
  intro keys
  induction keys with
  | nil =>
    intro l _ hcov
    have : l = [] := by
      cases l with
      | nil => rfl
      | cons a as => exact absurd (hcov a (by simp)) (by simp)
    subst this
    simp
  | cons k ks ih =>
    intro l hnd hcov
    have hknotin : k ∉ ks := (List.nodup_cons.mp hnd).1
    have hndks : ks.Nodup := (List.nodup_cons.mp hnd).2
    have htail : ∀ k2 ∈ ks,
        ((l.filter (fun x => !(x.platform == k))).filter (fun p => p.platform == k2))
          = l.filter (fun p => p.platform == k2) := by
      intro k2 hk2
      rw [List.filter_filter]
      refine List.filter_congr ?_
      intro x _
      cases hx : (x.platform == k2) with
      | false => simp [hx]
      | true =>
        have : x.platform = k2 := by simpa using hx
        have hne : ¬(x.platform == k) = true := by
          simp [this]
          intro hcon
          exact hknotin (hcon ▸ hk2)
        simp [hx, Bool.eq_false_iff.mpr hne]
    have hcov2 : ∀ p ∈ l.filter (fun x => !(x.platform == k)), p.platform ∈ ks := by
      intro p hp
      rw [List.mem_filter] at hp
      have h1 := hcov p hp.1
      have h2 : ¬(p.platform == k) = true := by simpa using hp.2
      simp at h2
      simp at h1
      rcases h1 with h1 | h1
      · exact absurd h1 h2
      · exact h1
    calc ((k :: ks).map (fun k2 => ((l.filter (fun p => p.platform == k2)).map f).sum)).sum
        = ((l.filter (fun p => p.platform == k)).map f).sum +
            (ks.map (fun k2 => ((l.filter (fun p => p.platform == k2)).map f).sum)).sum := by
          simp
      _ = ((l.filter (fun p => p.platform == k)).map f).sum +
            (ks.map (fun k2 =>
              (((l.filter (fun x => !(x.platform == k))).filter
                (fun p => p.platform == k2)).map f).sum)).sum := by
          congr 1
          refine congrArg _ ?_
          refine (List.map_congr_left ?_).symm
          intro k2 hk2
          rw [htail k2 hk2]
      _ = ((l.filter (fun p => p.platform == k)).map f).sum +
            ((l.filter (fun x => !(x.platform == k))).map f).sum := by
          congr 1
          exact ih (l.filter (fun x => !(x.platform == k))) hndks hcov2
      _ = (l.map f).sum := sum_map_filter_split _ f l

theorem platformKeys_nodup (l : List Post) : (platformKeys l).Nodup := by
  unfold platformKeys
  exact (List.perm_insertionSort _ _).symm.nodup (List.nodup_dedup _)

theorem mem_platformKeys (l : List Post) (p : Post) (hp : p ∈ l) :
    p.platform ∈ platformKeys l := by
  unfold platformKeys
  rw [(List.perm_insertionSort _ _).mem_iff, List.mem_dedup]
  exact List.mem_map_of_mem Post.platform hp

/-- C7: the per-platform rollup neither loses nor double counts: summing
any of the four aggregated columns over all rows gives the plain sum of
that field over the published posts of the input. -/
theorem platform_data_sum (posts : List Post) :
    ((platform_data (published_posts posts)).map PlatformRow.likes).sum
        = ((published_posts posts).map Post.likes).sum ∧
      ((platform_data (published_posts posts)).map PlatformRow.comments).sum
        = ((published_posts posts).map Post.comments).sum ∧
      ((platform_data (published_posts posts)).map PlatformRow.shares).sum
        = ((published_posts posts).map Post.shares).sum ∧
      ((platform_data (published_posts posts)).map PlatformRow.reach).sum
        = ((published_posts posts).map Post.reach).sum := by
  set l := published_posts posts with hl
  have key : ∀ g : Post → Int,
      (((platformKeys l).map (fun k => ((l.filter (fun p => p.platform == k)).map g).sum)).sum)
        = (l.map g).sum :=
    fun g => sum_filter_key g (platformKeys l) l (platformKeys_nodup l)
      (fun p hp => mem_platformKeys l p hp)
  refine ⟨?_, ?_, ?_, ?_⟩ <;>
    simpa [platform_data, List.map_map, Function.comp] using key _


/-- Case analysis of the engagement rate column builder. -/
theorem engRate_spec (eng reach : Int) :
    (reach = 0 → engRate eng reach =
      (if eng = 0 then PFloat.nan else if 0 < eng then PFloat.inf else PFloat.negInf)) ∧
    (reach ≠ 0 → engRate eng reach = PFloat.val ((eng : ℚ) / (reach : ℚ) * 100)) := by
  constructor <;> intro h <;> simp [engRate, h]

/-- C2 corrected: the rollup never raises on a zero reach sum, but the
engagement rate is then the IEEE non-finite result of the division (NaN
when the engagement sum is 0, otherwise a signed infinity), not a finite
fallback; for a nonzero reach sum it is the exact formula
`(likes + comments + shares) / reach * 100`. -/
theorem platform_data_engagement_rate (published : List Post) :
    ∀ row ∈ platform_data published,
      (row.reach = 0 → row.engagement_rate =
        (if row.likes + row.comments + row.shares = 0 then PFloat.nan
          else if 0 < row.likes + row.comments + row.shares then PFloat.inf
          else PFloat.negInf)) ∧
      (row.reach ≠ 0 → row.engagement_rate =
        PFloat.val (((row.likes + row.comments + row.shares : Int) : ℚ)
          / ((row.reach : Int) : ℚ) * 100)) := by
  intro row hrow
  simp only [platform_data, List.mem_map] at hrow
  obtain ⟨k, -, rfl⟩ := hrow
  exact engRate_spec _ _

/-- C2 witness: the zero-reach published post with 10 likes, whose
rollup row takes the positive infinity branch. -/
theorem platform_data_engagement_rate_witness :
    ∃ row ∈ platform_data [zeroReachPost], row.engagement_rate = PFloat.inf := by
  have h := (platform_data_engagement_rate [zeroReachPost]
    (PlatformRow.mk ("Instagram") 10 0 0 0 PFloat.inf) (by decide)).1 (by decide)
  exact ⟨PlatformRow.mk ("Instagram") 10 0 0 0 PFloat.inf, by decide, h.trans (by decide)⟩

/-- C3 corrected: the source sorts the published posts by total
engagement descending and truncates with the literal `head(5)`; there is
no n parameter.  On the scenario input the result is the five posts with
total engagement 300, 200, 75, 50, 10 in that order, and in general the
output is descending and has at most 5 posts. -/
theorem top_posts_spec (published : List Post) :
    (top_posts scenario_posts).map total_engagement = [300, 200, 75, 50, 10] ∧
      (top_posts published).length ≤ 5 ∧
      (top_posts published).Sorted (fun a b => total_engagement b ≤ total_engagement a) := by
  refine ⟨by decide, ?_, ?_⟩
  · unfold top_posts
    exact List.length_take_le 5 _
  · unfold top_posts
    have hs : (List.insertionSort (fun a b => total_engagement b ≤ total_engagement a)
        published).Sorted (fun a b => total_engagement b ≤ total_engagement a) := by
      haveI : IsTotal Post (fun a b => total_engagement b ≤ total_engagement a) :=
        ⟨fun a b => le_total _ _⟩
      haveI : IsTrans Post (fun a b => total_engagement b ≤ total_engagement a) :=
        ⟨fun a b c hab hbc => le_trans hbc hab⟩
      exact List.sorted_insertionSort _ _
    exact hs.sublist (List.take_sublist 5 _)


/-- C6 corrected: for any current date the seed deterministically
produces exactly 20 posts whose platform column cycles through the five
demo platforms (Instagram, Facebook, Twitter, LinkedIn, TikTok —
Pinterest, the sixth enum value, never occurs) and whose status column
cycles through all three statuses; scheduled dates are drawn from the
window of 5 days before through 14 days after the current date, and the
four engagement fields are nonzero exactly on the Published posts, by
the index-keyed formula. -/
theorem demo_data_spec (today : Date) :
    (demo_data today).length = 20 ∧
      (demo_data today).map Post.platform =
        demo_platforms ++ demo_platforms ++ demo_platforms ++ demo_platforms ∧
      (demo_data today).map Post.status =
        demo_statuses ++ demo_statuses ++ demo_statuses ++ demo_statuses ∧
      (∀ p ∈ demo_data today,
        (p.status ≠ "Published" →
          p.likes = 0 ∧ p.comments = 0 ∧ p.shares = 0 ∧ p.reach = 0) ∧
        (p.status = "Published" →
          0 < p.likes ∧ 0 < p.comments ∧ 0 < p.shares ∧ 0 < p.reach) ∧
        p.scheduled_date ∈ (demo_dates today).map fmtDate) := by
  refine ⟨rfl, rfl, rfl, ?_⟩
  intro p hp
  simp only [demo_data, List.mem_map, List.mem_range] at hp
  obtain ⟨i, hi, rfl⟩ := hp
  refine ⟨?_, ?_, ?_⟩
  · intro hstat
    have hstat2 : demo_statuses.getD (i % 5) "" ≠ "Published" := hstat
    simp at hstat2
    simp [demo_post, hstat2]
  · intro hstat
    have hstat2 : demo_statuses.getD (i % 5) "" = "Published" := hstat
    simp at hstat2
    have h7 : 0 ≤ (i : Int) % 7 := Int.emod_nonneg _ (by omega)
    have h5 : 0 ≤ (i : Int) % 5 := Int.emod_nonneg _ (by omega)
    have h4 : 0 ≤ (i : Int) % 4 := Int.emod_nonneg _ (by omega)
    have h10 : 0 ≤ (i : Int) % 10 := Int.emod_nonneg _ (by omega)
    simp [demo_post, hstat2]
    refine ⟨by omega, by omega, by omega, by omega⟩
  · have hlen : (demo_dates today).length = 20 := by simp [demo_dates]
    have : (demo_post today i).scheduled_date =
        fmtDate ((demo_dates today).getD (i % 20) today) := rfl
    rw [this]
    have hi20 : i % 20 = i := Nat.mod_eq_of_lt hi
    rw [hi20]
    refine List.mem_map_of_mem fmtDate ?_
    have := List.getD_eq_getElem (demo_dates today) today (by omega : i < (demo_dates today).length)
    rw [this]
    exact List.getElem_mem _

/-- C6 witness: instantiated at the sample date; the third seeded post is
a Draft and all its engagement fields are zero. -/
theorem demo_data_spec_witness :
    (demo_data sampleToday).length = 20 ∧
      (demo_post sampleToday 2).likes = 0 := by
  obtain ⟨hlen, -, -, hall⟩ := demo_data_spec sampleToday
  refine ⟨hlen, ?_⟩
  exact ((hall (demo_post sampleToday 2) (by decide)).1 (by decide)).1

end SocialPlanner
